import Mathlib

/-!
Verification of the SITREP inventory core (rule evaluation, matrix
synchronization, checklist rollup, period lifecycle, authentication
backends) against a shallow embedding of `src/inventory`.

Python data is embedded by the inductive `PyVal` (JSON-like values plus
the Django `Decimal` type, stored as an integer number of hundredths,
matching `DecimalField(decimal_places=2)`).  Fallible Python code is
embedded in `Except PyErr`.  Approximations of the embedding are noted
next to the definition they concern; every modelled fragment covers all
inputs the claims quantify over.
-/

/-- Python exception kinds observable in the embedded fragment. -/
inductive PyErr where
  | typeError
  | valueError
  | attributeError
  | multipleObjectsReturned
  deriving DecidableEq

/-- JSON-like Python values. `vdec cents` models a `Decimal` with two
decimal places (Django `DecimalField(decimal_places=2)`), stored as the
integer number of hundredths. JSON fractional numbers are outside the
modelled value fragment (the rule contracts of this repository use
integer thresholds). -/
inductive PyVal where
  | vnone
  | vbool (b : Bool)
  | vint (n : Int)
  | vdec (cents : Int)
  | vstr (s : String)
  | vlist (xs : List PyVal)
  | vdict (fields : List (String × PyVal))

/-- Python truthiness (`if not x`): None, False, 0, empty string, empty
list and empty dict are falsy. -/
def truthy : PyVal → Bool
  | .vnone => false
  | .vbool b => b
  | .vint n => n != 0
  | .vdec c => c != 0
  | .vstr s => s != ""
  | .vlist xs => !xs.isEmpty
  | .vdict fs => !fs.isEmpty

/-- `x.get(key, default)` on a Python value: dict lookup with default,
`AttributeError` on every non-dict receiver (no other embedded value has
a `get` method). -/
def pyGet (v : PyVal) (key : String) (default : PyVal) : Except PyErr PyVal :=
  match v with
  | .vdict fields => .ok ((fields.lookup key).getD default)
  | _ => .error .attributeError

/-- The physical vessel (`Nave` in models.py).  `eslora` is the Decimal
length in hundredths; `naviera` is the non-nullable tenant foreign key. -/
structure Nave where
  id : Nat
  naviera : Nat
  nombre : String
  matricula : String
  eslora : Int
  arqueo_bruto : Int
  capacidad_personas : Int
  is_active : Bool

/-- `getattr(nave, name, None)` restricted to the scalar attributes of
`Nave`.  Object-valued attributes (the `naviera` relation, timestamps)
are outside the embedded value universe and no rule contract of the
repository names them; any other name yields the `None` default. -/
def getattrNave (nave : Nave) (name : String) : PyVal :=
  if name = "eslora" then .vdec nave.eslora
  else if name = "arqueo_bruto" then .vint nave.arqueo_bruto
  else if name = "capacidad_personas" then .vint nave.capacidad_personas
  else if name = "nombre" then .vstr nave.nombre
  else if name = "matricula" then .vstr nave.matricula
  else if name = "is_active" then .vbool nave.is_active
  else if name = "id" then .vint nave.id
  else if name = "naviera_id" then .vint nave.naviera
  else .vnone

/-- `getattr(nave, atributo, None)`: the attribute name must be a
string, otherwise Python raises `TypeError` (this happens in
`evaluar_regla` whenever a truthy contract lacks the `atributo` key,
since `regla_json.get('atributo')` is then `None`). -/
def pyGetattr (nave : Nave) (atributo : PyVal) : Except PyErr PyVal :=
  match atributo with
  | .vstr s => .ok (getattrNave nave s)
  | _ => .error .typeError

/-- The five comparison operators of `MotorReglasSITREP.OPERADORES`. -/
inductive Op where
  | lt
  | le
  | eq
  | ge
  | gt
  deriving DecidableEq

/-- `OPERADORES.get(key)`: `None` for any hashable non-member key,
`TypeError` for unhashable keys (lists, dicts). -/
def operadoresGet (k : PyVal) : Except PyErr (Option Op) :=
  match k with
  | .vlist _ => .error .typeError
  | .vdict _ => .error .typeError
  | .vstr s =>
    .ok (if s = "<" then some .lt
      else if s = "<=" then some .le
      else if s = "==" then some .eq
      else if s = ">=" then some .ge
      else if s = ">" then some .gt
      else none)
  | _ => .ok none

/-- Truncation of a hundredths-scaled Decimal toward zero, the behavior
of `int(Decimal(...))`. -/
def decTruncInt (cents : Int) : Int :=
  if cents < 0 then -(((-cents).toNat / 100 : Nat) : Int)
  else ((cents.toNat / 100 : Nat) : Int)

/-- Rendering of a hundredths-scaled Decimal as `str(Decimal(...))`
does, always with two decimal places. -/
def decToString (cents : Int) : String :=
  let sign := if cents < 0 then "-" else ""
  let a := cents.natAbs
  sign ++ toString (a / 100) ++ "." ++
    (if a % 100 < 10 then "0" else "") ++ toString (a % 100)

/-- `str(x)` for the embedded scalar values (always succeeds).
Container rendering is Python repr; it is unreachable from
`getattrNave` and approximated by a fixed marker. -/
def pyStr : PyVal → String
  | .vnone => "None"
  | .vbool b => if b then "True" else "False"
  | .vint n => toString n
  | .vdec c => decToString c
  | .vstr s => s
  | .vlist _ => "[...]"
  | .vdict _ => "{...}"

/-- `int(x)` for a string argument.  Approximates the Python integer
literal parse by Lean's parse of an optional minus sign and digits
(Python additionally strips whitespace and accepts a plus sign and
digit underscores; no vessel attribute string of the claims uses
these). Failure is `ValueError`. -/
def strToIntOpt (s : String) : Option Int :=
  s.toInt?

/-- `int(x)`: `None` for the cast failures caught by the engine
(`ValueError`, `TypeError`). -/
def castInt (x : PyVal) : Option PyVal :=
  match x with
  | .vnone => none
  | .vbool b => some (.vint (if b then 1 else 0))
  | .vint n => some (.vint n)
  | .vdec c => some (.vint (decTruncInt c))
  | .vstr s => (strToIntOpt s).map PyVal.vint
  | .vlist _ => none
  | .vdict _ => none

/-- `type(valor_regla)(valor_nave)`: cast the vessel value to the type
of the comparison value of the condition; `none` models the
`ValueError` and `TypeError` failures that the engine catches and
skips.  Casts to the container types and to `Decimal` targets are
unreachable from the JSON contracts of the repository and modelled
conservatively as failing. -/
def pyCast (valor_regla valor_nave : PyVal) : Option PyVal :=
  match valor_regla with
  | .vnone => none
  | .vbool _ => some (.vbool (truthy valor_nave))
  | .vint _ => castInt valor_nave
  | .vdec _ => none
  | .vstr _ => some (.vstr (pyStr valor_nave))
  | .vlist _ => none
  | .vdict _ => none

/-- Lexicographic comparison of character lists (Python string order on
code points). -/
def charsLt : List Char → List Char → Bool
  | [], [] => false
  | [], _ :: _ => true
  | _ :: _, [] => false
  | a :: as, b :: bs => if a < b then true else if b < a then false else charsLt as bs

/-- Apply one comparison operator to two integers. -/
def intCmp (op : Op) (a b : Int) : Bool :=
  match op with
  | .lt => a < b
  | .le => a ≤ b
  | .eq => a = b
  | .ge => a ≥ b
  | .gt => a > b

/-- Apply one comparison operator to two strings. -/
def strCmp (op : Op) (a b : String) : Bool :=
  match op with
  | .lt => charsLt a.data b.data
  | .le => charsLt a.data b.data || a == b
  | .eq => a == b
  | .ge => charsLt b.data a.data || a == b
  | .gt => charsLt b.data a.data

/-- `func_op(casteado, valor_regla)`.  After the cast both arguments
have the type of the comparison value, so only same-type scalar
comparisons are reachable; Python booleans compare as the integers 0
and 1.  Mixed or container comparisons are modelled as the `TypeError`
Python order comparisons raise (equality on them is unreachable from
the cast). -/
def opApply (op : Op) (a b : PyVal) : Except PyErr Bool :=
  match a, b with
  | .vbool x, .vbool y => .ok (intCmp op (if x then 1 else 0) (if y then 1 else 0))
  | .vint x, .vint y => .ok (intCmp op x y)
  | .vdec x, .vdec y => .ok (intCmp op x y)
  | .vstr x, .vstr y => .ok (strCmp op x y)
  | _, _ => .error .typeError

/-- `for condicion in X` over the value of the `condiciones` key: lists
iterate elements, dicts iterate keys, strings iterate characters, all
other values raise `TypeError`. -/
def pyIter : PyVal → Except PyErr (List PyVal)
  | .vlist xs => .ok xs
  | .vdict fs => .ok (fs.map (fun kv => PyVal.vstr kv.fst))
  | .vstr s => .ok (s.data.map (fun c => PyVal.vstr (String.mk [c])))
  | _ => .error .typeError

/-- One iteration of the condition loop of
`MotorReglasSITREP.evaluar_regla` (services.py lines 34 to 45):
`ok (some (rc, rv))` when the condition fires and the loop returns,
`ok none` when the condition is skipped (cast failure or unsupported
operator) or does not hold, `error` when the body raises. -/
def condResult (valor_nave condicion : PyVal) : Except PyErr (Option (PyVal × PyVal)) := do
  let op_key ← pyGet condicion "operador" .vnone
  let func_op ← operadoresGet op_key
  let valor_regla ← pyGet condicion "valor" .vnone
  match pyCast valor_regla valor_nave with
  | Option.none => .ok Option.none
  | Option.some casteado =>
    match func_op with
    | Option.none => .ok Option.none
    | Option.some op => do
      let cumple ← opApply op casteado valor_regla
      if cumple then do
        let rc ← pyGet condicion "resultado_cantidad" (.vint 0)
        let rv ← pyGet condicion "resultado_visible" (.vbool false)
        .ok (Option.some (rc, rv))
      else .ok Option.none

/-- The condition loop: first condition whose `condResult` is a match
decides the result. -/
def evalCondiciones (valor_nave : PyVal) : List PyVal → Except PyErr (Option (PyVal × PyVal))
  | [] => .ok Option.none
  | condicion :: rest => do
    match ← condResult valor_nave condicion with
    | Option.some res => .ok (Option.some res)
    | Option.none => evalCondiciones valor_nave rest

/-- The value test `valor_nave is None` of services.py line 30. -/
def isVNone : PyVal → Bool
  | .vnone => true
  | _ => false

/-- The fallback pair
`(regla_json.get('fallback_cantidad', 0), regla_json.get('fallback_visible', False))`
computed at services.py lines 31 and 48. -/
def fallbackPair (regla_json : PyVal) : Except PyErr (PyVal × PyVal) :=
  (pyGet regla_json "fallback_cantidad" (.vint 0)) >>= fun fc =>
  (pyGet regla_json "fallback_visible" (.vbool false)) >>= fun fv =>
  .ok (fc, fv)

/-- `MotorReglasSITREP.evaluar_regla` (services.py lines 18 to 48),
transcribed clause by clause: falsy contract gives `(0, True)`; the
attribute named by the contract is resolved with a `None` default; a
`None` attribute value gives the contract fallbacks; otherwise the
conditions are scanned in order and the fallbacks close the scan. -/
def evaluar_regla (nave : Nave) (regla_json : PyVal) : Except PyErr (PyVal × PyVal) :=
  if !truthy regla_json then .ok (.vint 0, .vbool true)
  else
    (pyGet regla_json "atributo" .vnone) >>= fun atributo =>
    (pyGetattr nave atributo) >>= fun valor_nave =>
    bif isVNone valor_nave then fallbackPair regla_json
    else
      (pyGet regla_json "condiciones" (.vlist [])) >>= fun conds_v =>
      (pyIter conds_v) >>= fun conds =>
      (evalCondiciones valor_nave conds) >>= fun res =>
      match res with
      | Option.some r => .ok r
      | Option.none => fallbackPair regla_json

/-- Catalog entry `Recurso` (models.py lines 267 to 298): nullable
owning tenant (null means shared across tenants), the named
requirement list, and the optional JSON rule contract (`vnone` models
the null contract).  The classification foreign keys do not influence
the engine and are omitted. -/
structure Recurso where
  id : Nat
  naviera : Option Nat
  nombre : String
  requerimientos : List String
  regla_aplicacion : PyVal

/-- A row of `MatrizNaveRecurso` (models.py lines 308 to 333): the
computed quantity and visibility for one (vessel, resource) pair plus
the audit flag protecting manual edits. -/
structure MatrizRow where
  nave_id : Nat
  recurso_id : Nat
  cantidad : PyVal
  es_visible : PyVal
  modificado_manualmente : Bool

/-- Lookup of the row of one (vessel, resource) pair, the read of
`MatrizNaveRecurso.objects.get_or_create(nave=.., recurso=..)`
(first match; the declared unique constraint keeps at most one). -/
def findRow : List MatrizRow → Nat → Nat → Option MatrizRow
  | [], _, _ => Option.none
  | row :: rest, kn, kr =>
    if row.nave_id = kn ∧ row.recurso_id = kr then Option.some row
    else findRow rest kn kr

/-- In-place overwrite of quantity and visibility of the (first) row of
one (vessel, resource) pair, the write
`matriz_obj.save(update_fields=['cantidad', 'es_visible'])`. -/
def updateRow : List MatrizRow → Nat → Nat → PyVal → PyVal → List MatrizRow
  | [], _, _, _, _ => []
  | row :: rest, kn, kr, c, v =>
    if row.nave_id = kn ∧ row.recurso_id = kr then
      { row with cantidad := c, es_visible := v } :: rest
    else row :: updateRow rest kn kr c v

/-- The applicable resource set of a vessel (services.py lines 56 to
60): the union of tenant-null (shared) resources and the resources
owned by the tenant of the vessel. -/
def recursos_aplicables (recursos : List Recurso) (nave : Nave) : List Recurso :=
  recursos.filter
    (fun r => decide (r.naviera = Option.none ∨ r.naviera = Option.some nave.naviera))

/-- The loop body of `sincronizar_matriz_nave` (services.py lines 63 to
79) for one resource: evaluate the contract, create the missing row
with the audit flag cleared, or overwrite quantity and visibility only
when the existing row is not manually modified. -/
def syncStep (nave : Nave) (matriz : List MatrizRow) (recurso : Recurso) :
    Except PyErr (List MatrizRow) := do
  let calculo ← evaluar_regla nave recurso.regla_aplicacion
  match findRow matriz nave.id recurso.id with
  | Option.some row =>
    if row.modificado_manualmente then .ok matriz
    else .ok (updateRow matriz nave.id recurso.id calculo.fst calculo.snd)
  | Option.none =>
    .ok (matriz ++ [⟨nave.id, recurso.id, calculo.fst, calculo.snd, false⟩])

/-- `MotorReglasSITREP.sincronizar_matriz_nave` (services.py lines 50
to 79): fold the loop body over the applicable resources; an exception
aborts the remaining iterations (the surrounding transaction then rolls
everything back, see `sincronizarCommit`). -/
def sincronizar_matriz_nave (recursos : List Recurso) (nave : Nave)
    (matriz : List MatrizRow) : Except PyErr (List MatrizRow) :=
  (recursos_aplicables recursos nave).foldlM (syncStep nave) matriz

/-- The observable effect of one synchronizer run under
`transaction.atomic()`: the folded state on success, the unchanged
table on a raised exception (full rollback). -/
def sincronizarCommit (recursos : List Recurso) (nave : Nave)
    (matriz : List MatrizRow) : List MatrizRow :=
  match sincronizar_matriz_nave recursos nave matriz with
  | .ok m => m
  | .error _ => matriz

/-- Recorded state of one requirement check in a checklist payload. -/
inductive EstadoCheck where
  | ok
  | falla
  deriving DecidableEq

/-- One entry of the checklist payload: state plus free-text remark
(payload schema of spec section 6). -/
structure CheckEntry where
  estado : EstadoCheck
  observacion : String
  deriving DecidableEq

/-- Modelled from the spec: the recorded state of one requirement in
the payload, a requirement absent from the payload counting as failing
(spec section 4.3). -/
def requisitoOk (payload : List (String × CheckEntry)) (req : String) : Bool :=
  match payload.lookup req with
  | Option.some entry => entry.estado == EstadoCheck.ok
  | Option.none => false

/-- Modelled from the spec: the Checklist Rollup `computeOperational`
(spec sections 4.3 and 8) has no implementation under `src/` (models.py
lines 361 to 392 only declare the `FichaRegistro` fields and document
the invariant).  Per the spec, the flag is the logical AND over the
recorded per-requirement states. -/
def computeOperational (requerimientos : List String)
    (payload : List (String × CheckEntry)) : Bool :=
  requerimientos.all (requisitoOk payload)

/-- States of `PeriodoRevision.estado` (models.py line 350). -/
inductive EstadoPeriodo where
  | abierto
  | cerrado
  | vencido
  deriving DecidableEq

/-- `PeriodoRevision` (models.py lines 339 to 358); the date bounds do
not influence the embedded checks and are omitted. -/
structure PeriodoRevision where
  id : Nat
  nave_id : Nat
  periodicidad_id : Nat
  estado : EstadoPeriodo

/-- `FichaRegistro` (models.py lines 361 to 392). -/
structure FichaRegistro where
  periodo_id : Nat
  recurso_id : Nat
  usuario_id : Nat
  estado_operativo : Bool
  observacion_general : String
  payload_checklist : List (String × CheckEntry)

/-- Rejections of inspection-record submission (spec section 7). -/
inductive SubmitError where
  | periodNotOpen
  | duplicateRecord
  deriving DecidableEq

/-- Modelled from the spec: the write interface
`submitInspectionRecord` (spec sections 4.4 and 6) has no
implementation under `src/`; models.py only declares `FichaRegistro`
and its (periodo, recurso) unique constraint.  Per the spec it rejects
a period that is not open, enforces uniqueness, and computes the
operational flag (the caller hint for a resource without requirements,
otherwise the rollup AND which the hint may only force to false). -/
def submitInspectionRecord (periodo : PeriodoRevision) (recurso : Recurso)
    (usuario_id : Nat) (observacion : String)
    (payload : List (String × CheckEntry)) (flagHint : Bool)
    (fichas : List FichaRegistro) : Except SubmitError (List FichaRegistro) :=
  if periodo.estado ≠ EstadoPeriodo.abierto then .error .periodNotOpen
  else if fichas.any (fun f => f.periodo_id == periodo.id && f.recurso_id == recurso.id) then
    .error .duplicateRecord
  else
    let flag := if recurso.requerimientos.isEmpty then flagHint
      else flagHint && computeOperational recurso.requerimientos payload
    .ok (fichas ++ [⟨periodo.id, recurso.id, usuario_id, flag, observacion, payload⟩])

/-- `Usuario` (models.py lines 27 to 95).  `password` holds the raw
secret of the stored hash: `check_password` is embedded as comparison
with it, which is extensionally the Django hash check. -/
structure Usuario where
  id : Nat
  naviera : Option Nat
  rut : String
  email : Option String
  rol : String
  password : String
  is_active : Bool
  deriving DecidableEq

/-- `usuario.check_password(raw)` of the Django user model. -/
def check_password (usuario : Usuario) (raw : String) : Bool :=
  raw == usuario.password

/-- `ModelBackend.user_can_authenticate`: active users only. -/
def user_can_authenticate (usuario : Usuario) : Bool :=
  usuario.is_active

/-- Python falsiness of an optional request string (`if not x`): absent
or empty. -/
def falsyOptStr : Option String → Bool
  | Option.none => true
  | Option.some s => s == ""

/-- Python falsiness of an optional numeric request field: absent or
zero. -/
def falsyOptNat : Option Nat → Bool
  | Option.none => true
  | Option.some n => n == 0

/-- `WebTenantBackend.authenticate` (backends.py lines 12 to 30):
requires email and password, looks the user up by email
(`Usuario.objects.get` raises on several matches and its
`DoesNotExist` is caught as `None`), refuses the rol `mar`, then
checks password and active flag. -/
def web_authenticate (usuarios : List Usuario) (email password : Option String) :
    Except PyErr (Option Usuario) :=
  if falsyOptStr email || falsyOptStr password then .ok Option.none
  else
    match usuarios.filter (fun u => u.email == email) with
    | [] => .ok Option.none
    | [usuario] =>
      if usuario.rol == "mar" then .ok Option.none
      else if check_password usuario (password.getD "") && user_can_authenticate usuario then
        .ok (Option.some usuario)
      else .ok Option.none
    | _ :: _ :: _ => .error .multipleObjectsReturned

/-- `Dispositivo` (models.py lines 160 to 178). -/
structure Dispositivo where
  id : Nat
  naviera : Nat
  nave : Option Nat
  nombre : String
  token_autorizacion : String
  is_active : Bool
  deriving DecidableEq

/-- The method names defined in the class body of `Dispositivo` in
models.py: only the string rendering.  In particular neither
`generar_nuevo_token` nor `verificar_token` exists there or on the
Django model base class. -/
def dispositivoMethods : List String := ["__str__"]

/-- Python attribute resolution for a method call on a `Dispositivo`
instance: `AttributeError` for every name outside the defined set. -/
def dispositivoCallMethod (name : String) : Except PyErr Unit :=
  if name ∈ dispositivoMethods then .ok () else .error .attributeError

/-- `KioscoTenantBackend.authenticate` (backends.py lines 38 to 71):
request-integrity checks, hardware-binding loop over the active devices
of the tenant (whose body calls the undefined `verificar_token` and
therefore raises on its first iteration), then the identity check,
which is unreachable whenever an active device exists and the loop
leaves `dispositivo_valido` false otherwise. -/
def kiosco_authenticate (usuarios : List Usuario) (dispositivos : List Dispositivo)
    (rut pin : Option String) (naviera_id : Option Nat)
    (dispositivo_token : Option String) : Except PyErr (Option Usuario) :=
  if falsyOptStr rut || falsyOptStr pin || falsyOptNat naviera_id then .ok Option.none
  else if falsyOptStr dispositivo_token then .ok Option.none
  else
    match dispositivos.filter (fun d => Option.some d.naviera == naviera_id && d.is_active) with
    | [] => .ok Option.none
    | _ :: _ => do
      let _ ← dispositivoCallMethod "verificar_token"
      -- Dead code: the call above always raises, so the user lookup of
      -- backends.py lines 60 to 71 can never run; `usuarios` is unused.
      .ok Option.none

/-- Outcome of the `setup_kiosco` view. -/
inductive SetupResult where
  | forbidden (msg : String)
  | rendered (template : String)
  | raised (e : PyErr)
  deriving DecidableEq

/-- A request to `setup_kiosco`.  `nave_id` is the parsed numeric form
field (absent or blank modelled as `none`; a non-numeric id string
would raise before the lookup and is outside the modelled fragment). -/
structure SetupRequest where
  is_post : Bool
  nombre_dispositivo : Option String
  nave_id : Option Nat

/-- `setup_kiosco` (views.py lines 6 to 46): role shield, jurisdiction
check of the requested vessel against the tenant of the user, then the
call of the undefined `Dispositivo.generar_nuevo_token`, which raises
before `dispositivo.save()`.  The pair returned is (HTTP outcome,
device table after the request); the success render is dead code and
modelled with the device it would have saved. -/
def setup_kiosco (usuario : Usuario) (naves : List Nave)
    (dispositivos : List Dispositivo) (req : SetupRequest) :
    SetupResult × List Dispositivo :=
  if usuario.rol ∉ ["admin_sitrep", "admin_naviera", "capitan"] then
    (.forbidden "Violación de Seguridad: Rango insuficiente para aprovisionar hardware.",
      dispositivos)
  else if req.is_post then
    let jurisdiccion_ok :=
      match req.nave_id with
      | Option.none => true
      | Option.some nid =>
        naves.any (fun n => n.id == nid && Option.some n.naviera == usuario.naviera)
    if !jurisdiccion_ok then
      (.forbidden "Intento de Brecha: La nave solicitada no pertenece a su tenant.",
        dispositivos)
    else
      match dispositivoCallMethod "generar_nuevo_token" with
      | .error e => (.raised e, dispositivos)
      | .ok _ =>
        (.rendered "inventory/kiosco_tatuado.html",
          dispositivos ++ [⟨0, (usuario.naviera).getD 0, req.nave_id,
            (req.nombre_dispositivo).getD "", "", true⟩])
  else
    (.rendered "inventory/kiosco_setup.html", dispositivos)

/-- Projection of an engine result to the visibility boolean (used to
separate distinct results). -/
def visibleBoolOf : Except PyErr (PyVal × PyVal) → Bool
  | .ok (_, .vbool b) => b
  | _ => false

/-- Projection of an engine result to the quantity integer. -/
def cantidadIntOf : Except PyErr (PyVal × PyVal) → Int
  | .ok (.vint n, _) => n
  | _ => 0

/-- First condition of the Scenario A contract of the spec. -/
def condicionHasta10 : PyVal :=
  .vdict [("operador", .vstr "<="), ("valor", .vint 10),
    ("resultado_cantidad", .vint 0), ("resultado_visible", .vbool false)]

/-- Second condition of the Scenario A contract of the spec. -/
def condicionHasta50 : PyVal :=
  .vdict [("operador", .vstr "<="), ("valor", .vint 50),
    ("resultado_cantidad", .vint 2), ("resultado_visible", .vbool true)]

/-- Third condition of the Scenario A contract of the spec. -/
def condicionSobre50 : PyVal :=
  .vdict [("operador", .vstr ">"), ("valor", .vint 50),
    ("resultado_cantidad", .vint 4), ("resultado_visible", .vbool true)]

/-- The fields of the Scenario A rule contract of the spec (also the
documented example of models.py lines 238 to 265). -/
def camposEscenarioA : List (String × PyVal) :=
  [("atributo", .vstr "eslora"),
    ("condiciones", .vlist [condicionHasta10, condicionHasta50, condicionSobre50]),
    ("fallback_cantidad", .vint 0), ("fallback_visible", .vbool false)]

/-- The Scenario A rule contract of the spec. -/
def reglaEscenarioA : PyVal := .vdict camposEscenarioA

/-- A contract naming an attribute the vessel model does not define,
with an explicit fallback quantity. -/
def camposAtributoAusente : List (String × PyVal) :=
  [("atributo", .vstr "tonelaje"), ("fallback_cantidad", .vint 7)]

/-- A vessel with eslora 8.00 (Scenario A). -/
def naveEslora8 : Nave := ⟨1, 1, "Esperanza", "VAL-123", 800, 50, 12, true⟩

/-- A vessel with eslora 30.00 (Scenario B; the Scenario A contract
computes quantity 2 for it). -/
def naveEslora30 : Nave := ⟨2, 1, "Austral", "VAL-200", 3000, 120, 40, true⟩

/-- A shared catalog resource carrying the Scenario A contract. -/
def recursoExtintor : Recurso :=
  ⟨10, Option.none, "Extintor", ["ser naranjo", "tener cintas"], reglaEscenarioA⟩

/-- Scenario D: a manually overridden row with quantity 99 for
(naveEslora30, recursoExtintor). -/
def filaManual99 : MatrizRow := ⟨2, 10, .vint 99, .vbool true, true⟩

/-- A closed revision period (Scenario F). -/
def periodoCerrado : PeriodoRevision := ⟨5, 2, 3, EstadoPeriodo.cerrado⟩

/-- An authorized provisioning user (rol capitan) of tenant 1. -/
def usuarioCapitan : Usuario :=
  ⟨3, Option.some 1, "12.345.678-9", Option.some "cap@naviera.cl", "capitan", "clave", true⟩

/-- A sea-role user of tenant 1 with a registered email. -/
def usuarioMar : Usuario :=
  ⟨4, Option.some 1, "11.111.111-1", Option.some "mar@naviera.cl", "mar", "clave", true⟩

/-- An active registered device of tenant 1. -/
def dispositivoActivo : Dispositivo :=
  ⟨7, 1, Option.none, "Tablet Puente Mando", "tok-1", true⟩

/-- A POST request naming a vessel outside the tenant of the user. -/
def reqNaveAjena : SetupRequest := ⟨true, Option.some "Tablet Puente", Option.some 999⟩

/-- A POST request that provisions a device with no vessel binding. -/
def reqSinNave : SetupRequest := ⟨true, Option.some "Tablet Puente", Option.none⟩

/-- A matrix row of a resource (id 99) outside a one-resource catalog. -/
def filaAjena : MatrizRow := ⟨1, 99, .vint 1, .vbool true, false⟩

/-- Relation between the row of one (vessel, resource) pair before and
after synchronizer activity: either untouched, or an automatic
overwrite of quantity and visibility, which presupposes a cleared audit
flag and preserves keys and flag. -/
def Evolves (row row2 : MatrizRow) : Prop :=
  row2 = row ∨ (row.modificado_manualmente = false ∧
    ∃ c v, row2 = { row with cantidad := c, es_visible := v })

/-- Post-state of the synchronizer loop body for one resource: the
engine value is computed and the row of the pair either carries it or
is manually modified. -/
def PasoEstable (nave : Nave) (r : Recurso) (m : List MatrizRow) : Prop :=
  ∃ c v, evaluar_regla nave r.regla_aplicacion = Except.ok (c, v) ∧
    ∃ row, findRow m nave.id r.id = Option.some row ∧
      (row.modificado_manualmente = true ∨ (row.cantidad = c ∧ row.es_visible = v))

/-! Helper lemmas about the `Except` bind and the engine scan. -/

theorem pybind_ok {α β : Type} (a : α) (f : α → Except PyErr β) :
    (Except.ok a : Except PyErr α) >>= f = f a := rfl

theorem pybind_error {α β : Type} (e : PyErr) (f : α → Except PyErr β) :
    (Except.error e : Except PyErr α) >>= f = Except.error e := rfl

theorem truthy_vdict_of_ne_nil {fields : List (String × PyVal)} (h : fields ≠ []) :
    truthy (PyVal.vdict fields) = true := by
  cases fields with
  | nil => exact absurd rfl h
  | cons a l => rfl

theorem isVNone_eq_false {v : PyVal} (h : v ≠ PyVal.vnone) : isVNone v = false := by
  cases v
  case vnone => exact absurd rfl h
  all_goals rfl

/-- Unfolding of the engine on a truthy dict contract. -/
theorem evaluar_regla_unfold_vdict {nave : Nave} {fields : List (String × PyVal)}
    (h : fields ≠ []) :
    evaluar_regla nave (PyVal.vdict fields) =
      ((pyGetattr nave ((fields.lookup "atributo").getD PyVal.vnone)) >>= fun valor_nave =>
      bif isVNone valor_nave then fallbackPair (PyVal.vdict fields)
      else
        (pyIter ((fields.lookup "condiciones").getD (PyVal.vlist []))) >>= fun conds =>
        (evalCondiciones valor_nave conds) >>= fun res =>
        match res with
        | Option.some r => Except.ok r
        | Option.none => fallbackPair (PyVal.vdict fields)) := by
  unfold evaluar_regla
  simp only [truthy_vdict_of_ne_nil h, Bool.not_true, Bool.false_eq_true, if_false]
  rfl

theorem evalCondiciones_cons (v c : PyVal) (rest : List PyVal) :
    evalCondiciones v (c :: rest) =
      (condResult v c) >>= fun r =>
        match r with
        | Option.some res => Except.ok (Option.some res)
        | Option.none => evalCondiciones v rest := rfl

theorem evalCondiciones_cons_skip {v c : PyVal} (rest : List PyVal)
    (h : condResult v c = Except.ok Option.none) :
    evalCondiciones v (c :: rest) = evalCondiciones v rest := by
  rw [evalCondiciones_cons, h, pybind_ok]

theorem evalCondiciones_cons_match {v c : PyVal} (rest : List PyVal) {r : PyVal × PyVal}
    (h : condResult v c = Except.ok (Option.some r)) :
    evalCondiciones v (c :: rest) = Except.ok (Option.some r) := by
  rw [evalCondiciones_cons, h, pybind_ok]

theorem evalCondiciones_append {v : PyVal} {pre : List PyVal} (rest : List PyVal)
    (h : evalCondiciones v pre = Except.ok Option.none) :
    evalCondiciones v (pre ++ rest) = evalCondiciones v rest := by
  induction pre with
  | nil => simp
  | cons c pre ih =>
    cases hc : condResult v c with
    | error e =>
      rw [evalCondiciones_cons, hc, pybind_error] at h
      exact absurd h (by simp)
    | ok r =>
      cases r with
      | some res =>
        rw [evalCondiciones_cons_match _ hc] at h
        exact absurd h (by simp)
      | none =>
        rw [evalCondiciones_cons_skip _ hc] at h
        rw [List.cons_append, evalCondiciones_cons_skip _ hc, ih h]

/-- C1: for every rule contract with a condition list, `evaluar_regla`
scans the conditions in declaration order: whenever no condition of the
prefix fires and `condicion` fires with result pair (q, v), the engine
returns (q, v) whatever the later conditions are (they are never
evaluated), faithfully to the first-match semantics of services.py
lines 34 to 45.  Scenario A of the spec is the witness below. -/
theorem evaluar_regla_first_match
    (nave : Nave) (fields : List (String × PyVal)) (atrib : String)
    (pre post : List PyVal) (condicion : PyVal) (q v : PyVal)
    (hne : fields ≠ [])
    (hattr : (fields.lookup "atributo").getD PyVal.vnone = PyVal.vstr atrib)
    (hvne : getattrNave nave atrib ≠ PyVal.vnone)
    (hconds : (fields.lookup "condiciones").getD (PyVal.vlist []) =
      PyVal.vlist (pre ++ condicion :: post))
    (hpre : evalCondiciones (getattrNave nave atrib) pre = Except.ok Option.none)
    (hcond : condResult (getattrNave nave atrib) condicion =
      Except.ok (Option.some (q, v))) :
    evaluar_regla nave (PyVal.vdict fields) = Except.ok (q, v) := by
  rw [evaluar_regla_unfold_vdict hne, hattr]
  show (Except.ok (getattrNave nave atrib) : Except PyErr PyVal) >>= _ = _
  rw [pybind_ok]
  simp only [isVNone_eq_false hvne, Bool.cond_false, hconds, pyIter, pybind_ok]
  rw [evalCondiciones_append _ hpre, evalCondiciones_cons_match _ hcond, pybind_ok]

/-- C1 witness: Scenario A of the spec.  The vessel has eslora 8.00 and
the first condition (at most 10) fires with result (0, false); the
later conditions are not consulted. -/
theorem evaluar_regla_first_match_witness :
    evaluar_regla naveEslora8 reglaEscenarioA = Except.ok (PyVal.vint 0, PyVal.vbool false) :=
  evaluar_regla_first_match naveEslora8 camposEscenarioA "eslora"
    [] [condicionHasta50, condicionSobre50] condicionHasta10
    (PyVal.vint 0) (PyVal.vbool false)
    (by simp [camposEscenarioA]) rfl
    (fun h => PyVal.noConfusion h) rfl rfl rfl

/-- C4 counterexample: the contract that is an empty object is falsy in
Python, so services.py line 24 returns the absent-contract default
(0, True) instead of the fallback default (0, False) the claim states
for it. -/
theorem evaluar_regla_empty_contract_cex :
    evaluar_regla naveEslora8 (PyVal.vdict []) = Except.ok (PyVal.vint 0, PyVal.vbool true) ∧
    evaluar_regla naveEslora8 (PyVal.vdict []) ≠ Except.ok (PyVal.vint 0, PyVal.vbool false) := by
  refine ⟨rfl, fun h => ?_⟩
  have hb : (true : Bool) = false := congrArg visibleBoolOf h
  exact Bool.noConfusion hb

/-- C4 (amended): for every present, non-null contract that is a
non-empty object whose named attribute is absent from the vessel
attribute set or resolves to null, evaluate returns
(fallback_cantidad if present else 0, fallback_visible if present else
false); a contract that is an empty object is falsy, is treated like an
absent contract, and yields (0, true). -/
theorem evaluar_regla_fallback_amended :
    (∀ (nave : Nave) (fields : List (String × PyVal)) (a : String),
      fields ≠ [] →
      (fields.lookup "atributo").getD PyVal.vnone = PyVal.vstr a →
      getattrNave nave a = PyVal.vnone →
      evaluar_regla nave (PyVal.vdict fields) =
        Except.ok ((fields.lookup "fallback_cantidad").getD (PyVal.vint 0),
          (fields.lookup "fallback_visible").getD (PyVal.vbool false))) ∧
    (∀ nave : Nave,
      evaluar_regla nave (PyVal.vdict []) = Except.ok (PyVal.vint 0, PyVal.vbool true)) := by
  constructor
  · intro nave fields a hne hattr hval
    rw [evaluar_regla_unfold_vdict hne, hattr]
    show (Except.ok (getattrNave nave a) : Except PyErr PyVal) >>= _ = _
    rw [pybind_ok, hval]
    rfl
  · intro nave
    rfl

/-- C4 witness: a contract naming the absent attribute tonelaje with
fallback quantity 7 and no fallback visibility yields (7, false). -/
theorem evaluar_regla_fallback_amended_witness :
    evaluar_regla naveEslora8 (PyVal.vdict camposAtributoAusente) =
      Except.ok (PyVal.vint 7, PyVal.vbool false) := by
  rw [evaluar_regla_fallback_amended.1 naveEslora8 camposAtributoAusente "tonelaje"
    (by simp [camposAtributoAusente]) rfl rfl]
  rfl

/-- C6: the engine is not exception-free.  For every vessel, a truthy
contract lacking the atributo key makes services.py line 28 call
`getattr(nave, None, None)`, which raises `TypeError` (attribute name
must be string) instead of degrading to fallback semantics; the
exception escapes `evaluar_regla`. -/
theorem evaluar_regla_missing_atributo_raises (nave : Nave) :
    evaluar_regla nave (PyVal.vdict [("condiciones", PyVal.vlist [])]) =
      Except.error PyErr.typeError := rfl

/-- C5: for every resource with at least one named requirement,
`computeOperational` is the logical AND over the recorded states: it is
true exactly when every requirement appears in the payload with state
ok, and it is false as soon as one requirement is recorded as falla or
is absent from the payload. -/
theorem computeOperational_and_semantics
    (reqs : List String) (payload : List (String × CheckEntry)) (hne : reqs ≠ []) :
    (computeOperational reqs payload = true ↔
      ∀ r ∈ reqs, ∃ e, payload.lookup r = Option.some e ∧ e.estado = EstadoCheck.ok) ∧
    (∀ r ∈ reqs,
      (payload.lookup r = Option.none ∨
        ∃ e, payload.lookup r = Option.some e ∧ e.estado = EstadoCheck.falla) →
      computeOperational reqs payload = false) := by
  have hreq : ∀ r, requisitoOk payload r = true ↔
      ∃ e, payload.lookup r = Option.some e ∧ e.estado = EstadoCheck.ok := by
    intro r
    unfold requisitoOk
    cases hl : payload.lookup r with
    | none => simp
    | some e => simp
  have hiff : computeOperational reqs payload = true ↔
      ∀ r ∈ reqs, ∃ e, payload.lookup r = Option.some e ∧ e.estado = EstadoCheck.ok := by
    unfold computeOperational
    rw [List.all_eq_true]
    constructor
    · intro h r hr
      exact (hreq r).mp (h r hr)
    · intro h r hr
      exact (hreq r).mpr (h r hr)
  refine ⟨hiff, fun r hr hbad => ?_⟩
  cases hQ : computeOperational reqs payload with
  | false => rfl
  | true =>
    obtain ⟨e, hl, he⟩ := hiff.mp hQ r hr
    cases hbad with
    | inl h0 => rw [h0] at hl; exact absurd hl (by simp)
    | inr h0 =>
      obtain ⟨e2, hl2, he2⟩ := h0
      rw [hl] at hl2
      cases hl2
      rw [he] at he2
      exact absurd he2 (by simp)

/-- C5 witness: Scenario E of the spec.  The resource requires A and B
and the payload records only A as ok, so the rollup is false. -/
theorem computeOperational_and_semantics_witness :
    computeOperational ["A", "B"] [("A", ⟨EstadoCheck.ok, ""⟩)] = false :=
  (computeOperational_and_semantics ["A", "B"] [("A", ⟨EstadoCheck.ok, ""⟩)]
    (by simp)).2 "B" (by simp) (Or.inl rfl)

/-- C7: submitting an inspection record against a period whose state is
not abierto is rejected with `periodNotOpen` (no record is appended,
the record store is returned unchanged to the caller), and a submission
only succeeds against an abierto period. -/
theorem submitInspectionRecord_period_not_open
    (periodo : PeriodoRevision) (recurso : Recurso) (usuario_id : Nat)
    (observacion : String) (payload : List (String × CheckEntry)) (flagHint : Bool)
    (fichas : List FichaRegistro) :
    (periodo.estado ≠ EstadoPeriodo.abierto →
      submitInspectionRecord periodo recurso usuario_id observacion payload flagHint fichas =
        Except.error SubmitError.periodNotOpen) ∧
    (∀ fichas2,
      submitInspectionRecord periodo recurso usuario_id observacion payload flagHint fichas =
        Except.ok fichas2 →
      periodo.estado = EstadoPeriodo.abierto) := by
  constructor
  · intro h
    unfold submitInspectionRecord
    rw [if_pos h]
  · intro fichas2 h
    by_contra hne
    unfold submitInspectionRecord at h
    rw [if_pos hne] at h
    exact absurd h (by simp)

/-- C7 witness: Scenario F of the spec, a submission against a closed
period. -/
theorem submitInspectionRecord_period_not_open_witness :
    submitInspectionRecord periodoCerrado recursoExtintor 4 "" [] true [] =
      Except.error SubmitError.periodNotOpen :=
  (submitInspectionRecord_period_not_open periodoCerrado recursoExtintor 4 "" [] true []).1
    (by decide)

/-- C10: `WebTenantBackend.authenticate` returns None for the user of
rol mar that the email lookup finds, for every supplied password
(correct or not), and no successful web authentication ever yields a
user of rol mar (backends.py lines 20 and 21). -/
theorem web_authenticate_blocks_mar
    (usuarios : List Usuario) (email password : Option String) (u : Usuario) :
    (usuarios.filter (fun x => x.email == email) = [u] → u.rol = "mar" →
      web_authenticate usuarios email password = Except.ok Option.none) ∧
    (∀ r, web_authenticate usuarios email password = Except.ok (Option.some r) →
      r.rol ≠ "mar") := by
  constructor
  · intro hfilter hrol
    have hb : (u.rol == "mar") = true := by rw [hrol]; rfl
    simp [web_authenticate, hfilter, hb]
  · intro r h
    unfold web_authenticate at h
    split at h
    · exact absurd h (by simp)
    · split at h
      · exact absurd h (by simp)
      · next usuario heq =>
        split at h
        · exact absurd h (by simp)
        · next hrolne =>
          split at h
          · intro hmar
            have hur : usuario = r := by
              simpa using h
            exact hrolne (by rw [hur, hmar]; rfl)
          · exact absurd h (by simp)
      · exact absurd h (by simp)

/-- C10 witness: a mar user with registered email and the correct
password is still refused by the web backend. -/
theorem web_authenticate_blocks_mar_witness :
    web_authenticate [usuarioMar] (Option.some "mar@naviera.cl") (Option.some "clave") =
      Except.ok Option.none :=
  (web_authenticate_blocks_mar [usuarioMar] (Option.some "mar@naviera.cl")
    (Option.some "clave") usuarioMar).1 (by simp [usuarioMar]) rfl

/-- C9 counterexample: an authorized user (rol capitan) whose POST
names a vessel outside their tenant receives the jurisdiction
rejection of views.py line 26, not an `AttributeError`, so not every
authorized POST to `setup_kiosco` raises. -/
theorem setup_kiosco_claim_cex :
    (setup_kiosco usuarioCapitan [] [] reqNaveAjena).1 =
      SetupResult.forbidden "Intento de Brecha: La nave solicitada no pertenece a su tenant." ∧
    (setup_kiosco usuarioCapitan [] [] reqNaveAjena).1 ≠
      SetupResult.raised PyErr.attributeError :=
  ⟨rfl, by decide⟩

/-- C9 (amended): `Dispositivo` defines neither `generar_nuevo_token`
nor `verificar_token`, so (1) every POST to `setup_kiosco` by an
authorized user that passes the tenant-jurisdiction check on nave_id
raises `AttributeError` before the device is saved; (2)
`KioscoTenantBackend.authenticate` raises `AttributeError` whenever the
request carries rut, pin, naviera_id and device token and at least one
active device of the requested tenant exists; (3) no request to
`setup_kiosco` ever saves a device; (4) kiosk authentication never
returns a user. -/
theorem kiosco_attribute_error_amended :
    (∀ (usuario : Usuario) (naves : List Nave) (dispositivos : List Dispositivo)
      (req : SetupRequest),
      usuario.rol ∈ ["admin_sitrep", "admin_naviera", "capitan"] →
      req.is_post = true →
      (match req.nave_id with
        | Option.none => true
        | Option.some nid =>
          naves.any (fun n => n.id == nid && Option.some n.naviera == usuario.naviera)) = true →
      setup_kiosco usuario naves dispositivos req =
        (SetupResult.raised PyErr.attributeError, dispositivos)) ∧
    (∀ (usuarios : List Usuario) (dispositivos : List Dispositivo)
      (rut pin : Option String) (naviera_id : Option Nat) (token : Option String),
      falsyOptStr rut = false → falsyOptStr pin = false → falsyOptNat naviera_id = false →
      falsyOptStr token = false →
      dispositivos.filter (fun d => Option.some d.naviera == naviera_id && d.is_active) ≠ [] →
      kiosco_authenticate usuarios dispositivos rut pin naviera_id token =
        Except.error PyErr.attributeError) ∧
    (∀ (usuario : Usuario) (naves : List Nave) (dispositivos : List Dispositivo)
      (req : SetupRequest),
      (setup_kiosco usuario naves dispositivos req).2 = dispositivos) ∧
    (∀ (usuarios : List Usuario) (dispositivos : List Dispositivo)
      (rut pin : Option String) (naviera_id : Option Nat) (token : Option String)
      (u : Usuario),
      kiosco_authenticate usuarios dispositivos rut pin naviera_id token ≠
        Except.ok (Option.some u)) := by
  refine ⟨?_, ?_, ?_, ?_⟩
  · intro usuario naves dispositivos req hrol hpost hjur
    unfold setup_kiosco
    rw [if_neg (not_not_intro hrol), if_pos hpost]
    simp only [hjur, Bool.not_true, Bool.false_eq_true, if_false]
    rfl
  · intro usuarios dispositivos rut pin naviera_id token hrut hpin hnid htok hdev
    unfold kiosco_authenticate
    rw [if_neg (by simp [hrut, hpin, hnid]), if_neg (by simp [htok])]
    cases hfd : dispositivos.filter
        (fun d => Option.some d.naviera == naviera_id && d.is_active) with
    | nil => exact absurd hfd hdev
    | cons d ds => rfl
  · intro usuario naves dispositivos req
    simp only [setup_kiosco]
    split
    · rfl
    · split
      · split
        · rfl
        · rfl
      · rfl
  · intro usuarios dispositivos rut pin naviera_id token u
    unfold kiosco_authenticate
    split
    · exact fun h => Option.noConfusion (Except.ok.inj h)
    · split
      · exact fun h => Option.noConfusion (Except.ok.inj h)
      · split
        · exact fun h => Option.noConfusion (Except.ok.inj h)
        · exact fun h => Except.noConfusion h

/-- C9 witness: an authorized POST that provisions a device with no
vessel binding raises `AttributeError` and saves nothing. -/
theorem kiosco_attribute_error_amended_witness :
    setup_kiosco usuarioCapitan [] [] reqSinNave =
      (SetupResult.raised PyErr.attributeError, []) :=
  kiosco_attribute_error_amended.1 usuarioCapitan [] [] reqSinNave (by decide) rfl rfl

/-! Helper lemmas about the assignment table and the synchronizer. -/

theorem findRow_cons (x : MatrizRow) (m : List MatrizRow) (kn kr : Nat) :
    findRow (x :: m) kn kr =
      if x.nave_id = kn ∧ x.recurso_id = kr then Option.some x else findRow m kn kr := rfl

theorem findRow_cons_update (x : MatrizRow) (m : List MatrizRow) (kn kr : Nat) (c v : PyVal) :
    findRow ({ x with cantidad := c, es_visible := v } :: m) kn kr =
      if x.nave_id = kn ∧ x.recurso_id = kr then
        Option.some { x with cantidad := c, es_visible := v }
      else findRow m kn kr := rfl

theorem updateRow_cons (x : MatrizRow) (m : List MatrizRow) (kn kr : Nat) (c v : PyVal) :
    updateRow (x :: m) kn kr c v =
      if x.nave_id = kn ∧ x.recurso_id = kr then
        { x with cantidad := c, es_visible := v } :: m
      else x :: updateRow m kn kr c v := rfl

theorem findRow_append_of_found {m : List MatrizRow} {kn kr : Nat} {row : MatrizRow}
    (h : findRow m kn kr = Option.some row) (l : List MatrizRow) :
    findRow (m ++ l) kn kr = Option.some row := by
  induction m with
  | nil => exact absurd h (by simp [findRow])
  | cons x m ih =>
    rw [findRow_cons] at h
    rw [List.cons_append, findRow_cons]
    by_cases hx : x.nave_id = kn ∧ x.recurso_id = kr
    · rw [if_pos hx] at h ⊢; exact h
    · rw [if_neg hx] at h ⊢; exact ih h

theorem findRow_append_single_other {m : List MatrizRow} {x : MatrizRow} {kn kr : Nat}
    (hx : ¬(x.nave_id = kn ∧ x.recurso_id = kr)) :
    findRow (m ++ [x]) kn kr = findRow m kn kr := by
  induction m with
  | nil =>
    rw [List.nil_append, findRow_cons, if_neg hx]
  | cons y m ih =>
    rw [List.cons_append, findRow_cons, findRow_cons]
    by_cases hy : y.nave_id = kn ∧ y.recurso_id = kr
    · rw [if_pos hy, if_pos hy]
    · rw [if_neg hy, if_neg hy]; exact ih

theorem findRow_update_hit {m : List MatrizRow} {kn kr : Nat} {row : MatrizRow} (c v : PyVal)
    (h : findRow m kn kr = Option.some row) :
    findRow (updateRow m kn kr c v) kn kr =
      Option.some { row with cantidad := c, es_visible := v } := by
  induction m with
  | nil => exact absurd h (by simp [findRow])
  | cons x m ih =>
    rw [findRow_cons] at h
    rw [updateRow_cons]
    by_cases hx : x.nave_id = kn ∧ x.recurso_id = kr
    · rw [if_pos hx] at h
      rw [if_pos hx, findRow_cons_update, if_pos hx]
      cases h
      rfl
    · rw [if_neg hx] at h
      rw [if_neg hx, findRow_cons, if_neg hx]
      exact ih h

theorem findRow_update_other {m : List MatrizRow} {kn0 kr0 kn kr : Nat} (c v : PyVal)
    (hk : ¬(kn = kn0 ∧ kr = kr0)) :
    findRow (updateRow m kn0 kr0 c v) kn kr = findRow m kn kr := by
  induction m with
  | nil => rfl
  | cons x m ih =>
    rw [updateRow_cons]
    by_cases hx : x.nave_id = kn0 ∧ x.recurso_id = kr0
    · have hxk : ¬(x.nave_id = kn ∧ x.recurso_id = kr) := by
        intro hc
        exact hk ⟨hc.1.symm.trans hx.1, hc.2.symm.trans hx.2⟩
      rw [if_pos hx, findRow_cons_update, if_neg hxk, findRow_cons, if_neg hxk]
    · rw [if_neg hx, findRow_cons, findRow_cons]
      by_cases hy : x.nave_id = kn ∧ x.recurso_id = kr
      · rw [if_pos hy, if_pos hy]
      · rw [if_neg hy, if_neg hy]; exact ih

theorem updateRow_self {m : List MatrizRow} {kn kr : Nat} {row : MatrizRow}
    (h : findRow m kn kr = Option.some row) :
    updateRow m kn kr row.cantidad row.es_visible = m := by
  induction m with
  | nil => rfl
  | cons x m ih =>
    rw [findRow_cons] at h
    rw [updateRow_cons]
    by_cases hx : x.nave_id = kn ∧ x.recurso_id = kr
    · rw [if_pos hx] at h
      rw [if_pos hx]
      cases h
      rfl
    · rw [if_neg hx] at h
      rw [if_neg hx, ih h]

theorem Evolves_refl (row : MatrizRow) : Evolves row row := Or.inl rfl

theorem Evolves_trans {a b c : MatrizRow} (h1 : Evolves a b) (h2 : Evolves b c) :
    Evolves a c := by
  cases h1 with
  | inl hb =>
    rw [hb] at h2
    exact h2
  | inr hb =>
    obtain ⟨hflag, c1, v1, hb1⟩ := hb
    cases h2 with
    | inl hc => rw [hc, hb1]; exact Or.inr ⟨hflag, c1, v1, rfl⟩
    | inr hc =>
      obtain ⟨_, c2, v2, hc1⟩ := hc
      rw [hb1] at hc1
      exact Or.inr ⟨hflag, c2, v2, hc1⟩

theorem Evolves_flag {a b : MatrizRow} (h : Evolves a b) :
    b.modificado_manualmente = a.modificado_manualmente := by
  cases h with
  | inl hb => rw [hb]
  | inr hb => obtain ⟨_, c1, v1, hb1⟩ := hb; rw [hb1]

theorem Evolves_keys {a b : MatrizRow} (h : Evolves a b) :
    b.nave_id = a.nave_id ∧ b.recurso_id = a.recurso_id := by
  cases h with
  | inl hb => rw [hb]; exact ⟨rfl, rfl⟩
  | inr hb => obtain ⟨_, c1, v1, hb1⟩ := hb; rw [hb1]; exact ⟨rfl, rfl⟩

theorem Evolves_eq_of_flag_true {a b : MatrizRow} (h : Evolves a b)
    (hflag : a.modificado_manualmente = true) : b = a := by
  cases h with
  | inl hb => exact hb
  | inr hb =>
    obtain ⟨hf, _, _, _⟩ := hb
    rw [hflag] at hf
    exact absurd hf (by simp)

theorem Evolves_flag_false_of_ne {a b : MatrizRow} (h : Evolves a b) (hne : b ≠ a) :
    a.modificado_manualmente = false := by
  cases h with
  | inl hb => exact absurd hb hne
  | inr hb => exact hb.1

/-- Inversion of one successful loop-body iteration: the engine
succeeded and the table either was left alone (manual row), had the one
row of the pair overwritten (automatic row), or had the missing row
appended. -/
theorem syncStep_shape {nave : Nave} {r : Recurso} {m m2 : List MatrizRow}
    (h : syncStep nave m r = Except.ok m2) :
    ∃ c v, evaluar_regla nave r.regla_aplicacion = Except.ok (c, v) ∧
      ((∃ row0, findRow m nave.id r.id = Option.some row0 ∧
          row0.modificado_manualmente = true ∧ m2 = m) ∨
       (∃ row0, findRow m nave.id r.id = Option.some row0 ∧
          row0.modificado_manualmente = false ∧
          m2 = updateRow m nave.id r.id c v) ∨
       (findRow m nave.id r.id = Option.none ∧
          m2 = m ++ [⟨nave.id, r.id, c, v, false⟩])) := by
  unfold syncStep at h
  cases he : evaluar_regla nave r.regla_aplicacion with
  | error e =>
    rw [he, pybind_error] at h
    exact absurd h (by simp)
  | ok cv =>
    obtain ⟨c, v⟩ := cv
    rw [he, pybind_ok] at h
    refine ⟨c, v, rfl, ?_⟩
    split at h
    · next row0 hf =>
      split at h
      · next hflag =>
        simp only [Except.ok.injEq] at h
        exact Or.inl ⟨row0, hf, hflag, h.symm⟩
      · next hflag =>
        simp only [Except.ok.injEq] at h
        exact Or.inr (Or.inl ⟨row0, hf, by simpa using hflag, h.symm⟩)
    · next hf =>
      simp only [Except.ok.injEq] at h
      exact Or.inr (Or.inr ⟨hf, h.symm⟩)

/-- One successful loop-body iteration evolves every stored row. -/
theorem syncStep_preserve {nave : Nave} {r : Recurso} {m m2 : List MatrizRow}
    {kn kr : Nat} {row : MatrizRow}
    (h : syncStep nave m r = Except.ok m2) (hfind : findRow m kn kr = Option.some row) :
    ∃ row2, findRow m2 kn kr = Option.some row2 ∧ Evolves row row2 := by
  obtain ⟨c, v, he, hcase⟩ := syncStep_shape h
  cases hcase with
  | inl hc =>
    obtain ⟨row0, hf0, hflag0, hm2⟩ := hc
    rw [hm2]
    exact ⟨row, hfind, Evolves_refl row⟩
  | inr hc =>
    cases hc with
    | inl hc =>
      obtain ⟨row0, hf0, hflag0, hm2⟩ := hc
      rw [hm2]
      by_cases hk : kn = nave.id ∧ kr = r.id
      · obtain ⟨hk1, hk2⟩ := hk
        rw [hk1, hk2] at hfind
        rw [hfind] at hf0
        have hrr : row = row0 := by simpa using hf0
        rw [hk1, hk2, findRow_update_hit c v hfind]
        refine ⟨{ row with cantidad := c, es_visible := v }, rfl, Or.inr ⟨?_, c, v, rfl⟩⟩
        rw [hrr]
        exact hflag0
      · rw [findRow_update_other c v hk]
        exact ⟨row, hfind, Evolves_refl row⟩
    | inr hc =>
      obtain ⟨hf0, hm2⟩ := hc
      rw [hm2]
      exact ⟨row, findRow_append_of_found hfind _, Evolves_refl row⟩

/-- The whole loop of one synchronizer run evolves every stored row. -/
theorem sincronizar_fold_preserve {nave : Nave} {L : List Recurso}
    {m m2 : List MatrizRow} {kn kr : Nat} {row : MatrizRow}
    (h : L.foldlM (syncStep nave) m = Except.ok m2)
    (hfind : findRow m kn kr = Option.some row) :
    ∃ row2, findRow m2 kn kr = Option.some row2 ∧ Evolves row row2 := by
  induction L generalizing m row with
  | nil =>
    simp only [List.foldlM_nil] at h
    have hm : m = m2 := Except.ok.inj h
    rw [hm] at hfind
    exact ⟨row, hfind, Evolves_refl row⟩
  | cons r L ih =>
    rw [List.foldlM_cons] at h
    cases hs : syncStep nave m r with
    | error e => rw [hs, pybind_error] at h; exact absurd h (by simp)
    | ok m1 =>
      rw [hs, pybind_ok] at h
      obtain ⟨row1, hf1, hev1⟩ := syncStep_preserve hs hfind
      obtain ⟨row2, hf2, hev2⟩ := ih h hf1
      exact ⟨row2, hf2, Evolves_trans hev1 hev2⟩

/-- One committed synchronizer run evolves every stored row (rollback
on an exception leaves the table unchanged). -/
theorem sincronizarCommit_preserve (recursos : List Recurso) (nave : Nave)
    {m : List MatrizRow} {kn kr : Nat} {row : MatrizRow}
    (hfind : findRow m kn kr = Option.some row) :
    ∃ row2, findRow (sincronizarCommit recursos nave m) kn kr = Option.some row2 ∧
      Evolves row row2 := by
  unfold sincronizarCommit
  cases h : sincronizar_matriz_nave recursos nave m with
  | ok m2 => exact sincronizar_fold_preserve h hfind
  | error e => exact ⟨row, hfind, Evolves_refl row⟩

/-- Any number of committed synchronizer runs evolves every stored
row. -/
theorem sincronizarCommit_iterate_preserve (recursos : List Recurso) (nave : Nave)
    (n : Nat) {m : List MatrizRow} {kn kr : Nat} {row : MatrizRow}
    (hfind : findRow m kn kr = Option.some row) :
    ∃ row2, findRow ((sincronizarCommit recursos nave)^[n] m) kn kr = Option.some row2 ∧
      Evolves row row2 := by
  induction n generalizing m row with
  | zero => exact ⟨row, hfind, Evolves_refl row⟩
  | succ n ih =>
    rw [Function.iterate_succ_apply]
    obtain ⟨row1, hf1, hev1⟩ := sincronizarCommit_preserve recursos nave hfind
    obtain ⟨row2, hf2, hev2⟩ := ih hf1
    exact ⟨row2, hf2, Evolves_trans hev1 hev2⟩

/-- C2: rows with the audit flag set are immune to the synchronizer.
For every assignment row, after any number of synchronizer runs: a
manually modified row is returned unchanged by the lookup of its pair;
the flag of the pair never changes (services.py never writes it on an
existing row); and if the stored row of the pair changed at all, its
flag was false (automatic writes only touch rows with the flag
cleared). -/
theorem sincronizar_respeta_override
    (recursos : List Recurso) (nave : Nave) (matriz : List MatrizRow)
    (n kn kr : Nat) (row : MatrizRow)
    (hfind : findRow matriz kn kr = Option.some row) :
    (row.modificado_manualmente = true →
      findRow ((sincronizarCommit recursos nave)^[n] matriz) kn kr = Option.some row) ∧
    (∀ row2,
      findRow ((sincronizarCommit recursos nave)^[n] matriz) kn kr = Option.some row2 →
      row2.modificado_manualmente = row.modificado_manualmente) ∧
    (∀ row2,
      findRow ((sincronizarCommit recursos nave)^[n] matriz) kn kr = Option.some row2 →
      row2 ≠ row → row.modificado_manualmente = false) := by
  obtain ⟨row2, hf2, hev⟩ := sincronizarCommit_iterate_preserve recursos nave n hfind
  refine ⟨?_, ?_, ?_⟩
  · intro hflag
    rw [hf2, Evolves_eq_of_flag_true hev hflag]
  · intro row3 h3
    rw [hf2] at h3
    have h4 : row2 = row3 := by simpa using h3
    rw [← h4]
    exact Evolves_flag hev
  · intro row3 h3 hne
    rw [hf2] at h3
    have h4 : row2 = row3 := by simpa using h3
    rw [h4] at hev
    exact Evolves_flag_false_of_ne hev hne

/-- C2 witness: Scenario D of the spec.  The manually overridden row
with quantity 99 survives a synchronizer run whose rule computes
quantity 2. -/
theorem sincronizar_respeta_override_witness :
    findRow ((sincronizarCommit [recursoExtintor] naveEslora30)^[1] [filaManual99]) 2 10 =
      Option.some filaManual99 :=
  (sincronizar_respeta_override [recursoExtintor] naveEslora30 [filaManual99]
    1 2 10 filaManual99 rfl).1 rfl

/-- A loop-body iteration for one resource never touches the rows of
other resources. -/
theorem syncStep_other_recurso {nave : Nave} {r : Recurso} {m m2 : List MatrizRow}
    {kn kr : Nat} (hkr : kr ≠ r.id) (h : syncStep nave m r = Except.ok m2) :
    findRow m2 kn kr = findRow m kn kr := by
  obtain ⟨c, v, he, hcase⟩ := syncStep_shape h
  cases hcase with
  | inl hc =>
    obtain ⟨row0, hf0, hflag0, hm2⟩ := hc
    rw [hm2]
  | inr hc =>
    cases hc with
    | inl hc =>
      obtain ⟨row0, hf0, hflag0, hm2⟩ := hc
      rw [hm2]
      exact findRow_update_other c v (fun hc2 => hkr hc2.2)
    | inr hc =>
      obtain ⟨hf0, hm2⟩ := hc
      rw [hm2]
      exact findRow_append_single_other (fun hc2 => hkr hc2.2.symm)

/-- The loop of a synchronizer run never touches the rows of resources
outside the iterated list. -/
theorem fold_other_recurso {nave : Nave} {L : List Recurso} {m m2 : List MatrizRow}
    {kn kr : Nat} (hL : ∀ r ∈ L, r.id ≠ kr)
    (h : L.foldlM (syncStep nave) m = Except.ok m2) :
    findRow m2 kn kr = findRow m kn kr := by
  induction L generalizing m with
  | nil =>
    simp only [List.foldlM_nil] at h
    rw [Except.ok.inj h]
  | cons r L ih =>
    rw [List.foldlM_cons] at h
    cases hs : syncStep nave m r with
    | error e => rw [hs, pybind_error] at h; exact absurd h (by simp)
    | ok m1 =>
      rw [hs, pybind_ok] at h
      rw [ih (fun r2 hr2 => hL r2 (List.mem_cons_of_mem r hr2)) h]
      exact syncStep_other_recurso (Ne.symm (hL r (List.mem_cons_self r L))) hs

/-- A committed synchronizer run never touches the rows of resources
outside the applicable set. -/
theorem sincronizarCommit_other_recurso (recursos : List Recurso) (nave : Nave)
    {m : List MatrizRow} {kn kr : Nat}
    (hk : ∀ r ∈ recursos_aplicables recursos nave, r.id ≠ kr) :
    findRow (sincronizarCommit recursos nave m) kn kr = findRow m kn kr := by
  unfold sincronizarCommit
  cases h : sincronizar_matriz_nave recursos nave m with
  | ok m2 => exact fold_other_recurso hk h
  | error e => rfl

/-- C8: the resource set a synchronizer run reconciles for a vessel is
exactly the union of the shared (tenant-null) resources and the
resources owned by the tenant of the vessel, and the run never writes
the row of any resource outside that set. -/
theorem recursos_aplicables_tenant_scope (recursos : List Recurso) (nave : Nave) :
    (∀ r, r ∈ recursos_aplicables recursos nave ↔
      (r ∈ recursos ∧
        (r.naviera = Option.none ∨ r.naviera = Option.some nave.naviera))) ∧
    (∀ (matriz : List MatrizRow) (kr : Nat),
      (∀ r ∈ recursos_aplicables recursos nave, r.id ≠ kr) →
      ∀ kn, findRow (sincronizarCommit recursos nave matriz) kn kr =
        findRow matriz kn kr) := by
  constructor
  · intro r
    unfold recursos_aplicables
    rw [List.mem_filter]
    simp
  · intro matriz kr hk kn
    exact sincronizarCommit_other_recurso recursos nave hk

/-- C8 witness: with a one-resource catalog (resource id 10), a run for
the vessel leaves the stored row of the unrelated resource id 99
exactly as it was. -/
theorem recursos_aplicables_tenant_scope_witness :
    findRow (sincronizarCommit [recursoExtintor] naveEslora8 [filaAjena]) 1 99 =
      findRow [filaAjena] 1 99 :=
  (recursos_aplicables_tenant_scope [recursoExtintor] naveEslora8).2 [filaAjena] 99
    (by decide) 1

theorem findRow_append_self {m : List MatrizRow} {x : MatrizRow} {kn kr : Nat}
    (h : findRow m kn kr = Option.none) (hx : x.nave_id = kn ∧ x.recurso_id = kr) :
    findRow (m ++ [x]) kn kr = Option.some x := by
  induction m with
  | nil => rw [List.nil_append, findRow_cons, if_pos hx]
  | cons y m ih =>
    rw [findRow_cons] at h
    rw [List.cons_append, findRow_cons]
    by_cases hy : y.nave_id = kn ∧ y.recurso_id = kr
    · rw [if_pos hy] at h; exact absurd h (by simp)
    · rw [if_neg hy] at h
      rw [if_neg hy]
      exact ih h

/-- A successful loop-body iteration leaves its own resource in a
stable state: the row of the pair carries the engine value unless it is
manually modified. -/
theorem syncStep_establishes {nave : Nave} {r : Recurso} {m m2 : List MatrizRow}
    (h : syncStep nave m r = Except.ok m2) : PasoEstable nave r m2 := by
  obtain ⟨c, v, he, hcase⟩ := syncStep_shape h
  cases hcase with
  | inl hc =>
    obtain ⟨row0, hf0, hflag0, hm2⟩ := hc
    rw [hm2]
    exact ⟨c, v, he, row0, hf0, Or.inl hflag0⟩
  | inr hc =>
    cases hc with
    | inl hc =>
      obtain ⟨row0, hf0, hflag0, hm2⟩ := hc
      rw [hm2]
      exact ⟨c, v, he, { row0 with cantidad := c, es_visible := v },
        findRow_update_hit c v hf0, Or.inr ⟨rfl, rfl⟩⟩
    | inr hc =>
      obtain ⟨hf0, hm2⟩ := hc
      rw [hm2]
      exact ⟨c, v, he, ⟨nave.id, r.id, c, v, false⟩,
        findRow_append_self hf0 ⟨rfl, rfl⟩, Or.inr ⟨rfl, rfl⟩⟩

/-- Stability of one resource survives the loop-body iterations of the
other resources. -/
theorem fold_preserves_estable {nave : Nave} {r : Recurso} {L : List Recurso}
    {m m2 : List MatrizRow} (hL : ∀ r2 ∈ L, r2.id ≠ r.id)
    (h : L.foldlM (syncStep nave) m = Except.ok m2) (hP : PasoEstable nave r m) :
    PasoEstable nave r m2 := by
  obtain ⟨c, v, he, row, hf, hor⟩ := hP
  refine ⟨c, v, he, row, ?_, hor⟩
  rw [fold_other_recurso hL h]
  exact hf

/-- After a successful loop over resources with distinct ids, every
iterated resource is in a stable state. -/
theorem fold_establishes {nave : Nave} {L : List Recurso} {m m2 : List MatrizRow}
    (hnd : (L.map Recurso.id).Nodup) (h : L.foldlM (syncStep nave) m = Except.ok m2) :
    ∀ r ∈ L, PasoEstable nave r m2 := by
  induction L generalizing m with
  | nil => intro r hr; exact absurd hr (List.not_mem_nil r)
  | cons r0 L ih =>
    rw [List.foldlM_cons] at h
    cases hs : syncStep nave m r0 with
    | error e => rw [hs, pybind_error] at h; exact absurd h (by simp)
    | ok m1 =>
      rw [hs, pybind_ok] at h
      rw [List.map_cons, List.nodup_cons] at hnd
      obtain ⟨hnotmem, hnd2⟩ := hnd
      intro r hr
      cases List.mem_cons.mp hr with
      | inl hr0 =>
        rw [hr0]
        refine fold_preserves_estable ?_ h (syncStep_establishes hs)
        intro r2 hr2 heq
        exact hnotmem (heq ▸ List.mem_map_of_mem Recurso.id hr2)
      | inr hr2 => exact ih hnd2 h r hr2

/-- The loop body is the identity on a state where its resource is
already stable. -/
theorem syncStep_noop {nave : Nave} {r : Recurso} {m : List MatrizRow}
    (hP : PasoEstable nave r m) : syncStep nave m r = Except.ok m := by
  obtain ⟨c, v, he, row, hf, hor⟩ := hP
  unfold syncStep
  rw [he, pybind_ok]
  split
  · next row0 hf0 =>
    have hrr : row0 = row := by
      rw [hf] at hf0
      exact (Option.some.inj hf0).symm
    split
    · rfl
    · next hflag0 =>
      cases hor with
      | inl hflag =>
        rw [hrr, hflag] at hflag0
        exact absurd rfl hflag0
      | inr hvals =>
        have h5 : updateRow m nave.id r.id c v = m := by
          rw [← hvals.1, ← hvals.2]
          exact updateRow_self hf
        exact congrArg Except.ok h5
  · next hf0 =>
    rw [hf] at hf0
    exact absurd hf0 (by simp)

/-- The loop is the identity on a state where every iterated resource
is stable. -/
theorem fold_noop {nave : Nave} {L : List Recurso} {m : List MatrizRow}
    (hP : ∀ r ∈ L, PasoEstable nave r m) :
    L.foldlM (syncStep nave) m = Except.ok m := by
  induction L with
  | nil => rfl
  | cons r L ih =>
    rw [List.foldlM_cons, syncStep_noop (hP r (List.mem_cons_self r L)), pybind_ok]
    exact ih (fun r2 hr2 => hP r2 (List.mem_cons_of_mem r hr2))

/-- C3: with the catalog ids distinct (the database primary key
guarantees this), a second committed synchronizer run on an unchanged
vessel and catalog returns exactly the table the first run produced:
every row, quantity, visibility and audit flag included, is
identical. -/
theorem sincronizar_idempotente (recursos : List Recurso) (nave : Nave)
    (matriz : List MatrizRow) (hnd : (recursos.map Recurso.id).Nodup) :
    sincronizarCommit recursos nave (sincronizarCommit recursos nave matriz) =
      sincronizarCommit recursos nave matriz := by
  cases h : sincronizar_matriz_nave recursos nave matriz with
  | error e =>
    have hc : sincronizarCommit recursos nave matriz = matriz := by
      unfold sincronizarCommit
      rw [h]
    rw [hc]
    exact hc
  | ok m1 =>
    have hnd2 : ((recursos_aplicables recursos nave).map Recurso.id).Nodup :=
      List.Nodup.sublist (List.Sublist.map Recurso.id (List.filter_sublist recursos)) hnd
    have hP : ∀ r ∈ recursos_aplicables recursos nave, PasoEstable nave r m1 :=
      fold_establishes hnd2 h
    have h2 : sincronizar_matriz_nave recursos nave m1 = Except.ok m1 := fold_noop hP
    have hc1 : sincronizarCommit recursos nave matriz = m1 := by
      unfold sincronizarCommit
      rw [h]
    rw [hc1]
    unfold sincronizarCommit
    rw [h2]

/-- C3 witness: two committed runs on an empty table for the
one-resource catalog coincide with one run. -/
theorem sincronizar_idempotente_witness :
    sincronizarCommit [recursoExtintor] naveEslora30
        (sincronizarCommit [recursoExtintor] naveEslora30 []) =
      sincronizarCommit [recursoExtintor] naveEslora30 [] :=
  sincronizar_idempotente [recursoExtintor] naveEslora30 [] (by decide)
